import Mathlib

/-!
Verification of the feature-engineering and inference pipeline of the
fraud-detection app (src/app.py).  Numeric fields are modelled as rationals;
all inputs in the claims are exactly representable, so the embedded
arithmetic agrees with the source's arithmetic at every point considered.
-/

namespace FraudApp

/-- Type encoding from src/app.py line 42:
`type_val = 0 if type_input == 'TRANSFER' else 1`. -/
def typeVal (type_input : String) : ℚ :=
  if type_input = "TRANSFER" then 0 else 1

/-- Receiver-balance imputation from src/app.py lines 46-51: if both
destination balances are 0 and the amount is nonzero, both destination
balances become the sentinel -1.0; otherwise they pass through unchanged.
Returns the pair (old_bal_dest_proc, new_bal_dest_proc). -/
def destProc (old_bal_dest new_bal_dest amount : ℚ) : ℚ × ℚ :=
  if old_bal_dest = 0 ∧ new_bal_dest = 0 ∧ amount ≠ 0 then (-1, -1)
  else (old_bal_dest, new_bal_dest)

/-- Embedding of `preprocess_input` (src/app.py lines 35-77): type encoding,
receiver-balance imputation, the two error-balance features, and assembly of
the single 9-column row, in the source's column order
[step, type, amount, oldBalanceOrig, newBalanceOrig, oldBalanceDest,
newBalanceDest, errorBalanceOrig, errorBalanceDest]. -/
def preprocess_input (step : ℚ) (type_input : String)
    (amount old_bal_orig new_bal_orig old_bal_dest new_bal_dest : ℚ) :
    List ℚ :=
  let type_val := typeVal type_input
  let old_bal_dest_proc := (destProc old_bal_dest new_bal_dest amount).1
  let new_bal_dest_proc := (destProc old_bal_dest new_bal_dest amount).2
  let error_orig := new_bal_orig + amount - old_bal_orig
  let error_dest := old_bal_dest_proc + amount - new_bal_dest_proc
  [step, type_val, amount, old_bal_orig, new_bal_orig,
   old_bal_dest_proc, new_bal_dest_proc, error_orig, error_dest]

/-- The RawTransaction record of the spec's data model (section 3); its
fields are the seven arguments the app passes to `preprocess_input` at
src/app.py lines 110-113. -/
structure RawTransaction where
  timeStep : ℚ
  transactionType : String
  amount : ℚ
  senderBalanceBefore : ℚ
  senderBalanceAfter : ℚ
  receiverBalanceBefore : ℚ
  receiverBalanceAfter : ℚ
deriving DecidableEq

/-- The Feature Builder applied to a RawTransaction: `preprocess_input` on
its seven fields, exactly as the submit handler calls it. -/
def build (t : RawTransaction) : List ℚ :=
  preprocess_input t.timeStep t.transactionType t.amount
    t.senderBalanceBefore t.senderBalanceAfter
    t.receiverBalanceBefore t.receiverBalanceAfter

/-- A loaded classifier as the app sees it (src/app.py lines 118-120):
`predict_proba` returns rows of class probabilities and `predict` returns a
row of labels, for a single-row feature input. -/
structure Classifier where
  predict_proba : List ℚ → List (List ℚ)
  predict : List ℚ → List ℚ

/-- Failure of the scoring step: the classifier output lacks the indexed
entry (the spec's SchemaError; in the source, the failing `[0][1]` / `[0]`
index access). -/
inductive EvalError where
  | SchemaError
deriving DecidableEq

/-- The result of scoring one feature row: the positive-class probability
and the binary label. -/
structure ScoreResult where
  fraudProbability : ℚ
  isFraud : ℚ
deriving DecidableEq

/-- Embedding of the scoring step (src/app.py lines 115-120):
`probability = model.predict_proba(df)[0][1]` and
`prediction = model.predict(df)[0]`; a missing row or missing class-1
column is the SchemaError failure. -/
def evaluate (c : Classifier) (features : List ℚ) :
    Except EvalError ScoreResult :=
  match (c.predict_proba features)[0]? with
  | none => Except.error EvalError.SchemaError
  | some row =>
    match row[1]? with
    | none => Except.error EvalError.SchemaError
    | some p =>
      match (c.predict features)[0]? with
      | none => Except.error EvalError.SchemaError
      | some label => Except.ok ⟨p, label⟩

/-- The recommendation shown to the user (src/app.py lines 127 and 138). -/
inductive Recommendation where
  | BLOCK_AND_INVESTIGATE
  | ALLOW
deriving DecidableEq

/-- What the submit handler renders for one scored transaction: the
recommendation, the risk figure as a percentage, and (only in the fraud
branch) the two error-balance diagnostics. -/
structure RenderedOutput where
  recommendation : Recommendation
  riskPct : ℚ
  errorBalances : Option (ℚ × ℚ)
deriving DecidableEq

/-- Embedding of the result-rendering branch (src/app.py lines 124-139):
label 1 renders the block recommendation together with columns
errorBalanceOrig and errorBalanceDest (positions 7 and 8 of the feature
row); any other label renders the allow recommendation without them; the
probability is rendered as a percentage in both branches. -/
def submitRender (prediction probability : ℚ) (df : List ℚ) :
    RenderedOutput :=
  if prediction = 1 then
    ⟨Recommendation.BLOCK_AND_INVESTIGATE, probability * 100,
      some (df.getD 7 0, df.getD 8 0)⟩
  else
    ⟨Recommendation.ALLOW, probability * 100, none⟩

/-- A concrete two-class classifier used to instantiate hypotheses. -/
def cEx : Classifier :=
  ⟨fun _ => [[7/10, 3/10]], fun _ => [1]⟩

end FraudApp

namespace FraudApp

/-- C1: the claim expects the fraud-like scenario (step=1, TRANSFER,
amount=50000, sender 100000 then 50000, receiver 0 then 0) to produce
errorBalanceDest 50051; the code produces -1 + 50000 - (-1) = 50000, so the
claimed vector is not the one emitted. -/
theorem c1_counterexample :
    preprocess_input 1 "TRANSFER" 50000 100000 50000 0 0 ≠
      [1, 0, 50000, 100000, 50000, -1, -1, 0, 50051] := by
  norm_num [preprocess_input, typeVal, destProc]

/-- C1 amended: for step=1, TRANSFER, amount=50000, sender 100000 then
50000, receiver 0 then 0, imputation triggers and the emitted vector is
exactly [1, 0, 50000, 100000, 50000, -1, -1, 0, 50000], with
errorBalanceDest = -1 + 50000 - (-1) = 50000. -/
theorem c1_fraud_scenario_vector :
    preprocess_input 1 "TRANSFER" 50000 100000 50000 0 0 =
      [1, 0, 50000, 100000, 50000, -1, -1, 0, 50000] := by
  norm_num [preprocess_input, typeVal, destProc]

/-- C2: the claim states that with receiver balances 0 and 0 and amount
100 the emitted errorBalanceDest equals 102.0; the code computes
-1 + 100 - (-1) = 100, so the claim fails already at step=1, TRANSFER,
sender balances 100 and 0. -/
theorem c2_counterexample :
    (preprocess_input 1 "TRANSFER" 100 100 0 0 0).getD 8 0 ≠ 102 := by
  norm_num [preprocess_input, typeVal, destProc]

/-- C2 amended: with receiver balances 0 and 0 and amount 100 (other
fields arbitrary), both receiver fields used in the error computation
become -1 and errorBalanceDest = -1 + 100 - (-1) = 100; with amount 0 and
the same zero balances, imputation does not trigger — both receiver
fields stay 0 rather than becoming the sentinel -1 — and errorBalanceDest
= 0 + 0 - 0 = 0. -/
theorem c2_imputation_gating (step : ℚ) (ty : String) (o n : ℚ) :
    (preprocess_input step ty 100 o n 0 0).getD 5 0 = -1 ∧
    (preprocess_input step ty 100 o n 0 0).getD 6 0 = -1 ∧
    (preprocess_input step ty 100 o n 0 0).getD 8 0 = 100 ∧
    (preprocess_input step ty 0 o n 0 0).getD 5 0 = 0 ∧
    (preprocess_input step ty 0 o n 0 0).getD 6 0 = 0 ∧
    (preprocess_input step ty 0 o n 0 0).getD 8 0 = 0 := by
  norm_num [preprocess_input, destProc]

/-- C3: for every input, position 7 of the vector (errorBalanceOrig) is
senderBalanceAfter + amount - senderBalanceBefore computed from the
original, non-imputed sender balances and amount, and position 8
(errorBalanceDest) is receiverBefore' + amount - receiverAfter' computed
from the imputed receiver balances produced by the imputation step. -/
theorem c3_error_balance_formulas (step : ℚ) (ty : String)
    (amount o n od nd : ℚ) :
    (preprocess_input step ty amount o n od nd).getD 7 0 =
      n + amount - o ∧
    (preprocess_input step ty amount o n od nd).getD 8 0 =
      (destProc od nd amount).1 + amount - (destProc od nd amount).2 :=
  ⟨rfl, rfl⟩

/-- C4: with non-negative receiver balances (the form guarantees this),
both receiver fields of the vector equal the sentinel -1 exactly when
receiverBalanceBefore = 0, receiverBalanceAfter = 0 and amount is nonzero;
in every other case both receiver balances pass through unchanged. -/
theorem c4_imputation_iff (step : ℚ) (ty : String)
    (amount o n od nd : ℚ) (hod : 0 ≤ od) (hnd : 0 ≤ nd) :
    (((preprocess_input step ty amount o n od nd).getD 5 0 = -1 ∧
      (preprocess_input step ty amount o n od nd).getD 6 0 = -1) ↔
      (od = 0 ∧ nd = 0 ∧ amount ≠ 0)) ∧
    (¬(od = 0 ∧ nd = 0 ∧ amount ≠ 0) →
      (preprocess_input step ty amount o n od nd).getD 5 0 = od ∧
      (preprocess_input step ty amount o n od nd).getD 6 0 = nd) := by
  have h5 : (preprocess_input step ty amount o n od nd).getD 5 0 =
      (destProc od nd amount).1 := rfl
  have h6 : (preprocess_input step ty amount o n od nd).getD 6 0 =
      (destProc od nd amount).2 := rfl
  rw [h5, h6]
  by_cases hc : od = 0 ∧ nd = 0 ∧ amount ≠ 0
  · rw [destProc, if_pos hc]
    exact ⟨⟨fun _ => hc, fun _ => ⟨rfl, rfl⟩⟩, fun h => absurd hc h⟩
  · rw [destProc, if_neg hc]
    refine ⟨⟨?_, fun h => absurd h hc⟩, fun _ => ⟨rfl, rfl⟩⟩
    rintro ⟨ha, _⟩
    have hod' : (0 : ℚ) ≤ -1 := by
      calc (0 : ℚ) ≤ od := hod
        _ = -1 := ha
    norm_num at hod'

/-- C4 witness: the hypotheses and conclusion of `c4_imputation_iff`
instantiated at the fraud-like scenario's concrete values. -/
theorem c4_imputation_iff_witness :
    (0 : ℚ) ≤ 0 ∧
    ((((preprocess_input 1 "TRANSFER" 50000 100000 50000 0 0).getD 5 0 =
        -1 ∧
      (preprocess_input 1 "TRANSFER" 50000 100000 50000 0 0).getD 6 0 =
        -1) ↔
      ((0 : ℚ) = 0 ∧ (0 : ℚ) = 0 ∧ (50000 : ℚ) ≠ 0)) ∧
    (¬((0 : ℚ) = 0 ∧ (0 : ℚ) = 0 ∧ (50000 : ℚ) ≠ 0) →
      (preprocess_input 1 "TRANSFER" 50000 100000 50000 0 0).getD 5 0 =
        0 ∧
      (preprocess_input 1 "TRANSFER" 50000 100000 50000 0 0).getD 6 0 =
        0)) :=
  ⟨le_refl 0,
    c4_imputation_iff 1 "TRANSFER" 50000 100000 50000 0 0
      (le_refl 0) (le_refl 0)⟩

/-- C5: the type encoding maps "TRANSFER" to code 0, "CASH_OUT" to code
1, and any other string also to code 1, at position 1 of the vector. -/
theorem c5_type_encoding (step amount o n od nd : ℚ) :
    (preprocess_input step "TRANSFER" amount o n od nd).getD 1 0 = 0 ∧
    (preprocess_input step "CASH_OUT" amount o n od nd).getD 1 0 = 1 ∧
    ∀ ty : String, ty ≠ "TRANSFER" →
      (preprocess_input step ty amount o n od nd).getD 1 0 = 1 := by
  refine ⟨rfl, rfl, fun ty hty => ?_⟩
  have h1 : (preprocess_input step ty amount o n od nd).getD 1 0 =
      typeVal ty := rfl
  rw [h1, typeVal, if_neg hty]

/-- C5 witness: an unrecognized transaction type string encodes to 1. -/
theorem c5_type_encoding_witness :
    "PAYMENT" ≠ "TRANSFER" ∧
    (preprocess_input 1 "PAYMENT" 2 3 4 5 6).getD 1 0 = 1 :=
  ⟨by decide, (c5_type_encoding 1 2 3 4 5 6).2.2 "PAYMENT" (by decide)⟩

/-- C6: every emitted vector has exactly 9 entries in the fixed order
[step, type code, amount, sender before, sender after, adjusted receiver
before, adjusted receiver after, errorBalanceOrig, errorBalanceDest];
and in scenario 1 (step=1, TRANSFER, amount=50000, sender 100000 then
50000, receiver 0 then 50000) no imputation triggers and the vector is
exactly [1, 0, 50000, 100000, 50000, 0, 50000, 0, 0]. -/
theorem c6_vector_shape (step : ℚ) (ty : String) (amount o n od nd : ℚ) :
    (preprocess_input step ty amount o n od nd).length = 9 ∧
    preprocess_input step ty amount o n od nd =
      [step, typeVal ty, amount, o, n,
       (destProc od nd amount).1, (destProc od nd amount).2,
       n + amount - o,
       (destProc od nd amount).1 + amount - (destProc od nd amount).2] ∧
    preprocess_input 1 "TRANSFER" 50000 100000 50000 0 50000 =
      [1, 0, 50000, 100000, 50000, 0, 50000, 0, 0] := by
  refine ⟨rfl, rfl, ?_⟩
  norm_num [preprocess_input, typeVal, destProc]

/-- C7: the Risk Evaluator takes the probability from entry 1 of row 0 of
predict_proba and the label from entry 0 of a separate predict call; a
predict_proba output without a class-1 column (or without any row) fails
with SchemaError; and the label never depends on predict_proba: two
classifiers with the same predict yield the same label whenever both
evaluations succeed. -/
theorem c7_risk_evaluator (c : Classifier) (feats : List ℚ) :
    (∀ (p0 p1 : ℚ) (tl : List ℚ) (rest : List (List ℚ))
        (l : ℚ) (ls : List ℚ),
        c.predict_proba feats = (p0 :: p1 :: tl) :: rest →
        c.predict feats = l :: ls →
        evaluate c feats = Except.ok ⟨p1, l⟩) ∧
    (∀ (row : List ℚ) (rest : List (List ℚ)),
        c.predict_proba feats = row :: rest → row.length ≤ 1 →
        evaluate c feats = Except.error EvalError.SchemaError) ∧
    (c.predict_proba feats = [] →
        evaluate c feats = Except.error EvalError.SchemaError) ∧
    (∀ c2 : Classifier, c2.predict = c.predict →
      ∀ r1 r2 : ScoreResult, evaluate c feats = Except.ok r1 →
        evaluate c2 feats = Except.ok r2 →
        r1.isFraud = r2.isFraud) := by
  refine ⟨?_, ?_, ?_, ?_⟩
  · intro p0 p1 tl rest l ls hp hl
    simp [evaluate, hp, hl]
  · intro row rest hp hlen
    have hrow : row[1]? = none := by
      rw [List.getElem?_eq_none_iff]
      omega
    simp [evaluate, hp, hrow]
  · intro hp
    simp [evaluate, hp]
  · intro c2 hpred r1 r2 h1 h2
    obtain ⟨pr1, f1⟩ := r1
    obtain ⟨pr2, f2⟩ := r2
    rcases hA : (c.predict_proba feats)[0]? with _ | row1
    · simp [evaluate, hA] at h1
    rcases hB : row1[1]? with _ | p
    · simp [evaluate, hA, hB] at h1
    rcases hC : (c2.predict_proba feats)[0]? with _ | row2
    · simp [evaluate, hC] at h2
    rcases hD : row2[1]? with _ | q
    · simp [evaluate, hC, hD] at h2
    rcases hE : (c.predict feats)[0]? with _ | lab
    · simp [evaluate, hA, hB, hE] at h1
    · simp only [evaluate, hA, hB, hE, Except.ok.injEq,
        ScoreResult.mk.injEq] at h1
      simp only [evaluate, hC, hD, hpred, hE, Except.ok.injEq,
        ScoreResult.mk.injEq] at h2
      simp only [← h1.2, ← h2.2]

/-- C7 witness: evaluating the concrete classifier `cEx` (probability row
[0.7, 0.3], label row [1]) on a feature row yields probability 0.3 (entry
1 of row 0) and label 1. -/
theorem c7_risk_evaluator_witness :
    evaluate cEx [1] = Except.ok ⟨3 / 10, 1⟩ :=
  (c7_risk_evaluator cEx [1]).1 (7 / 10) (3 / 10) [] [] 1 [] rfl rfl

/-- C8: label 1 renders the block recommendation with both error-balance
diagnostics (positions 7 and 8 of the feature row), label 0 renders the
allow recommendation without them, and the probability is rendered as a
percentage in both branches; for a built transaction the two diagnostics
shown are exactly errorBalanceOrig and errorBalanceDest. -/
theorem c8_render_decision (probability : ℚ) (df : List ℚ)
    (t : RawTransaction) :
    (submitRender 1 probability df).recommendation =
      Recommendation.BLOCK_AND_INVESTIGATE ∧
    (submitRender 1 probability df).errorBalances =
      some (df.getD 7 0, df.getD 8 0) ∧
    (submitRender 1 probability df).riskPct = probability * 100 ∧
    (submitRender 0 probability df).recommendation =
      Recommendation.ALLOW ∧
    (submitRender 0 probability df).errorBalances = none ∧
    (submitRender 0 probability df).riskPct = probability * 100 ∧
    (submitRender 1 probability (build t)).errorBalances =
      some (t.senderBalanceAfter + t.amount - t.senderBalanceBefore,
        (destProc t.receiverBalanceBefore t.receiverBalanceAfter
            t.amount).1 + t.amount -
          (destProc t.receiverBalanceBefore t.receiverBalanceAfter
            t.amount).2) := by
  norm_num [submitRender, build, preprocess_input]

/-- C9: the Feature Builder is deterministic: two invocations on identical
RawTransaction inputs produce identical FeatureVectors (the embedding of
`preprocess_input` is a pure function of its seven arguments; the source
reads no other state). -/
theorem c9_build_deterministic (t1 t2 : RawTransaction) (h : t1 = t2) :
    build t1 = build t2 := by
  rw [h]

/-- C9 witness: determinism at the concrete scenario-1 transaction. -/
theorem c9_build_deterministic_witness :
    build ⟨1, "TRANSFER", 50000, 100000, 50000, 0, 50000⟩ =
      build ⟨1, "TRANSFER", 50000, 100000, 50000, 0, 50000⟩ :=
  c9_build_deterministic _ _ rfl

/-- C10: whenever the imputation triggers (both receiver balances 0 and a
nonzero amount), the emitted errorBalanceDest equals exactly the amount,
because -1 + amount - (-1) = amount. -/
theorem c10_imputed_error_is_amount (step : ℚ) (ty : String)
    (amount o n od nd : ℚ)
    (h1 : od = 0) (h2 : nd = 0) (h3 : amount ≠ 0) :
    (preprocess_input step ty amount o n od nd).getD 8 0 = amount := by
  subst h1
  subst h2
  have hd : destProc 0 0 amount = (-1, -1) := by
    simp [destProc, h3]
  show (destProc 0 0 amount).1 + amount - (destProc 0 0 amount).2 = amount
  rw [hd]
  ring

/-- C10 witness: at the fraud-like scenario the imputed errorBalanceDest
equals the amount 50000. -/
theorem c10_imputed_error_is_amount_witness :
    (preprocess_input 1 "TRANSFER" 50000 100000 50000 0 0).getD 8 0 =
      50000 :=
  c10_imputed_error_is_amount 1 "TRANSFER" 50000 100000 50000 0 0
    rfl rfl (by norm_num)

end FraudApp
